import Mathlib

/-!
# Verification of the UpGrade agent orchestration core

This development is a shallow embedding, in Lean 4, of the orchestration core
of the `upgrade-agent` repository:

* the request transformation/merge engine
  (`src/tools/executor/action_tools.py` and `src/utils/experiment_builders.py`),
* the bounded iterative tool-calling loop (`src/nodes/intelligent_agent.py`),
* the five-node router graph (`src/graph/builder.py`, with the node update
  functions of `src/nodes/*.py` and the routing functions wired by the
  builder).

Python dictionaries whose keys may be absent are embedded as structures of
`Option` fields (a `none` field is an absent key); Python dict objects used
as string-to-string tables are embedded as association lists with Python's
update semantics (`pyDictSet` keeps the position of an existing key,
`pyDictGet?` returns the most recently written value).  `uuid4()` is embedded
as an injected id supply `idGen : Nat -> String` (one fresh name per
generated record); nothing below depends on the actual names.  Calls that
cross the process boundary (the HTTP client, the language model) are
embedded as explicit function parameters or `Except` outcomes.
-/

/-- Python `dict.get`: the value most recently written for the key, if any. -/
def pyDictGet? : List (String × String) → String → Option String
  | [], _ => none
  | (k, v) :: m, key =>
    match pyDictGet? m key with
    | some x => some x
    | none => if k = key then some v else none

/-- Python `d[k] = v`: update the value in place when the key exists,
append otherwise. -/
def pyDictSet : List (String × String) → String → String → List (String × String)
  | [], k, v => [(k, v)]
  | (k0, v0) :: m, k, v =>
    if k0 = k then (k0, v) :: m else (k0, v0) :: pyDictSet m k v

/-! ## Data model of the transformation engine

Mirrors the `TypedDict`s of `src/models/types.py` that the transformation
code reads and writes.  Payload fields the transformation engine never
inspects (`levelCombinationElements`, `subSegments`, query objects) are
embedded as opaque strings. -/

/-- `CreateIndividualForSegment` of `src/models/types.py`. -/
structure CreateIndividualForSegment where
  userId : String
deriving DecidableEq

/-- `CreateGroupForSegment` of `src/models/types.py`. -/
structure CreateGroupForSegment where
  groupId : String
  type : String
deriving DecidableEq

/-- `CreateSegment` of `src/models/types.py`. -/
structure CreateSegment where
  individualForSegment : List CreateIndividualForSegment
  groupForSegment : List CreateGroupForSegment
  subSegments : List String
  type : String
deriving DecidableEq

/-- `CreateExperimentSegment` of `src/models/types.py`. -/
structure CreateExperimentSegment where
  segment : CreateSegment
deriving DecidableEq

/-- `CreateCondition` of `src/models/types.py`. -/
structure CreateCondition where
  id : String
  twoCharacterId : Option String
  conditionCode : String
  assignmentWeight : Int
  description : Option String
  order : Nat
  name : Option String
  levelCombinationElements : Option String
deriving DecidableEq

/-- `CreatePartition` of `src/models/types.py`. -/
structure CreatePartition where
  id : String
  twoCharacterId : Option String
  site : String
  target : Option String
  description : Option String
  order : Nat
  excludeIfReached : Bool
deriving DecidableEq

/-- `CreateExperimentRequest` of `src/models/types.py` (the fields the
transformation engine reads or writes; a key that is absent from the Python
dict is identified with a key present with value `None`, which no code in
the engine distinguishes). -/
structure CreateExperimentRequest where
  name : String
  description : String
  consistencyRule : String
  assignmentUnit : String
  group : Option String
  type : String
  context : List String
  assignmentAlgorithm : String
  tags : List String
  conditions : List CreateCondition
  partitions : List CreatePartition
  experimentSegmentInclusion : CreateExperimentSegment
  experimentSegmentExclusion : CreateExperimentSegment
  filterMode : String
  queries : List String
  state : String
  postExperimentRule : String
  revertTo : Option String
deriving DecidableEq

/-! ## Simplified action parameters

The `action_params` dictionary handed to the executor tools.  Each field
models one key; `none` is an absent key. -/

/-- One entry of the simplified `conditions` list: `{code, weight, name?}`. -/
structure CondParam where
  code : String
  weight : Int
  name : Option String
deriving DecidableEq

/-- One entry of the simplified `decision_points` list. -/
structure DecisionPointParam where
  site : String
  target : Option String
  exclude_if_reached : Option Bool
deriving DecidableEq

/-- One entry of an `inclusion_groups` / `exclusion_groups` list:
`{type, group_id}`. -/
structure GroupParam where
  type : String
  group_id : String
deriving DecidableEq

/-- The `post_experiment_rule` sub-dictionary: `{rule?, condition_code?}`. -/
structure PostRuleParam where
  rule : Option String
  condition_code : Option String
deriving DecidableEq

/-- The simplified `action_params` dictionary for experiment create/update. -/
structure ActionParams where
  name : Option String := none
  context : Option String := none
  decision_points : Option (List DecisionPointParam) := none
  conditions : Option (List CondParam) := none
  description : Option String := none
  consistency_rule : Option String := none
  assignment_unit : Option String := none
  group_type : Option String := none
  tags : Option (List String) := none
  filter_mode : Option String := none
  post_experiment_rule : Option PostRuleParam := none
  inclusion_users : Option (List String) := none
  inclusion_groups : Option (List GroupParam) := none
  exclusion_users : Option (List String) := none
  exclusion_groups : Option (List GroupParam) := none
deriving DecidableEq

/-- The empty override dictionary `{}`. -/
def emptyActionParams : ActionParams := {}

/-! ## Enum value sets (`src/models/enums.py`)

The Python enum constructors (`ConsistencyRule(x)` etc.) raise `ValueError`
on a string that is not a member; the create transformation calls them on
caller-supplied values, so the embedding checks membership. -/

def consistencyRuleValues : List String := ["individual", "experiment", "group"]

def assignmentUnitValues : List String := ["individual", "group", "within-subjects"]

def filterModeValues : List String := ["includeAll", "excludeAll"]

def postExperimentRuleValues : List String := ["continue", "revert", "assign"]

/-- Failures of the pre-network part of the create path: `KeyError` on a
missing dict key, `ValueError` from `_validate_required_params` or from an
enum constructor. -/
inductive TransformError where
  | keyError (key : String)
  | valueError (msg : String)
deriving DecidableEq

/-! ## Shared helpers of both transformation copies

`_create_experiment_segment`, `_create_conditions`, `_create_partitions`,
`_convert_*`, `_apply_simple_field_updates`, `_apply_conditions_update` and
`_apply_post_experiment_rule_update` are textually identical in
`action_tools.py` and `experiment_builders.py`; they are defined once. -/

/-- `_create_experiment_segment`: picks the inclusion or exclusion lists
(`x or []` on a missing/None argument), maps users and groups into segment
records, and wraps them in a private segment. -/
def createExperimentSegment (inclusion_users : Option (List String))
    (inclusion_groups : Option (List GroupParam))
    (exclusion_users : Option (List String))
    (exclusion_groups : Option (List GroupParam))
    (is_inclusion : Bool) : CreateExperimentSegment :=
  let users := if is_inclusion then inclusion_users.getD [] else exclusion_users.getD []
  let groups := if is_inclusion then inclusion_groups.getD [] else exclusion_groups.getD []
  { segment :=
      { individualForSegment := users.map fun u => { userId := u }
        groupForSegment := groups.map fun g => { groupId := g.group_id, type := g.type }
        subSegments := []
        type := "private" } }

/-- Recursion core of `_create_conditions`: `i` is the running `enumerate`
index.  Produces the condition list and the `code -> id` table in insertion
order (`pyDictGet?` realises the dict's last-write-wins reads). -/
def createConditionsGo (idGen : Nat → String) :
    Nat → List CondParam → List CreateCondition × List (String × String)
  | _, [] => ([], [])
  | i, c :: rest =>
    let conditionId := idGen i
    let (conds, table) := createConditionsGo idGen (i + 1) rest
    ({ id := conditionId
       twoCharacterId := none
       conditionCode := c.code
       assignmentWeight := c.weight
       description := none
       order := i
       name := some (c.name.getD c.code)
       levelCombinationElements := none } :: conds,
     (c.code, conditionId) :: table)

/-- `_create_conditions`: conditions from the simplified format plus the
`condition code -> generated id` mapping. -/
def createConditions (idGen : Nat → String) (conditionsData : List CondParam) :
    List CreateCondition × List (String × String) :=
  createConditionsGo idGen 0 conditionsData

/-- Recursion core of `_create_partitions`. -/
def createPartitionsGo (idGen : Nat → String) :
    Nat → List DecisionPointParam → List CreatePartition
  | _, [] => []
  | i, dp :: rest =>
    { id := idGen i
      twoCharacterId := none
      site := dp.site
      target := dp.target
      description := none
      order := i
      excludeIfReached := dp.exclude_if_reached.getD false } :: createPartitionsGo idGen (i + 1) rest

/-- `_create_partitions`: partitions from the simplified decision points. -/
def createPartitions (idGen : Nat → String) (decisionPointsData : List DecisionPointParam) :
    List CreatePartition :=
  createPartitionsGo idGen 0 decisionPointsData

namespace ActionTools

/-- `_transform_to_create_experiment_request` of
`src/tools/executor/action_tools.py` (the copy the registered
`create_experiment` tool calls).  Note that this copy builds the inclusion
segment directly from `inclusion_users` / `inclusion_groups` with no
`filter_mode` special case.  Failure cases are raised in the evaluation
order of the Python body. -/
def transformToCreateExperimentRequest (idGen : Nat → String) (p : ActionParams) :
    Except TransformError CreateExperimentRequest :=
  match p.conditions with
  | none => .error (.keyError "conditions")
  | some conditionsData =>
    match p.decision_points with
    | none => .error (.keyError "decision_points")
    | some decisionPointsData =>
      let (conditions, conditionCodeToId) := createConditions idGen conditionsData
      let partitions := createPartitions idGen decisionPointsData
      let experimentSegmentInclusion :=
        createExperimentSegment (some (p.inclusion_users.getD []))
          (some (p.inclusion_groups.getD [])) none none true
      let experimentSegmentExclusion :=
        createExperimentSegment none none (some (p.exclusion_users.getD []))
          (some (p.exclusion_groups.getD [])) false
      match p.name with
      | none => .error (.keyError "name")
      | some name =>
        if (p.consistency_rule.getD "individual") ∈ consistencyRuleValues then
          if (p.assignment_unit.getD "individual") ∈ assignmentUnitValues then
            match p.context with
            | none => .error (.keyError "context")
            | some context =>
              if (p.filter_mode.getD "excludeAll") ∈ filterModeValues then
                if ((p.post_experiment_rule.map fun r => r.rule.getD "continue").getD
                    "continue") ∈ postExperimentRuleValues then
                  .ok
                    { name := name
                      description := p.description.getD ""
                      consistencyRule := p.consistency_rule.getD "individual"
                      assignmentUnit := p.assignment_unit.getD "individual"
                      group := p.group_type
                      type := "Simple"
                      context := [context]
                      assignmentAlgorithm := "random"
                      tags := p.tags.getD []
                      conditions := conditions
                      partitions := partitions
                      experimentSegmentInclusion := experimentSegmentInclusion
                      experimentSegmentExclusion := experimentSegmentExclusion
                      filterMode := p.filter_mode.getD "excludeAll"
                      queries := []
                      state := "inactive"
                      postExperimentRule :=
                        (p.post_experiment_rule.map fun r => r.rule.getD "continue").getD
                          "continue"
                      revertTo :=
                        if (p.post_experiment_rule.bind fun r => r.rule) = some "assign" then
                          (p.post_experiment_rule.bind fun r => r.condition_code).bind
                            (pyDictGet? conditionCodeToId)
                        else none }
                else .error (.valueError "PostExperimentRule")
              else .error (.valueError "FilterMode")
          else .error (.valueError "AssignmentUnit")
        else .error (.valueError "ConsistencyRule")

end ActionTools

namespace ExperimentBuilders

/-- `_transform_to_create_experiment_request` of
`src/utils/experiment_builders.py`.  Identical to the `action_tools.py`
copy except for the `filter_mode`-specific inclusion logic: when
`filter_mode == 'includeAll'` the supplied inclusion lists are overridden by
the single sentinel group `{type: "All", group_id: "All"}`. -/
def transformToCreateExperimentRequest (idGen : Nat → String) (p : ActionParams) :
    Except TransformError CreateExperimentRequest :=
  match p.conditions with
  | none => .error (.keyError "conditions")
  | some conditionsData =>
    match p.decision_points with
    | none => .error (.keyError "decision_points")
    | some decisionPointsData =>
      let (conditions, conditionCodeToId) := createConditions idGen conditionsData
      let partitions := createPartitions idGen decisionPointsData
      let filter_mode := p.filter_mode.getD "excludeAll"
      let inclusion_users : List String :=
        if filter_mode = "includeAll" then [] else p.inclusion_users.getD []
      let inclusion_groups : List GroupParam :=
        if filter_mode = "includeAll" then [{ type := "All", group_id := "All" }]
        else p.inclusion_groups.getD []
      let experimentSegmentInclusion :=
        createExperimentSegment (some inclusion_users) (some inclusion_groups) none none true
      let experimentSegmentExclusion :=
        createExperimentSegment none none (some (p.exclusion_users.getD []))
          (some (p.exclusion_groups.getD [])) false
      match p.name with
      | none => .error (.keyError "name")
      | some name =>
        if (p.consistency_rule.getD "individual") ∈ consistencyRuleValues then
          if (p.assignment_unit.getD "individual") ∈ assignmentUnitValues then
            match p.context with
            | none => .error (.keyError "context")
            | some context =>
              if (p.filter_mode.getD "excludeAll") ∈ filterModeValues then
                if ((p.post_experiment_rule.map fun r => r.rule.getD "continue").getD
                    "continue") ∈ postExperimentRuleValues then
                  .ok
                    { name := name
                      description := p.description.getD ""
                      consistencyRule := p.consistency_rule.getD "individual"
                      assignmentUnit := p.assignment_unit.getD "individual"
                      group := p.group_type
                      type := "Simple"
                      context := [context]
                      assignmentAlgorithm := "random"
                      tags := p.tags.getD []
                      conditions := conditions
                      partitions := partitions
                      experimentSegmentInclusion := experimentSegmentInclusion
                      experimentSegmentExclusion := experimentSegmentExclusion
                      filterMode := p.filter_mode.getD "excludeAll"
                      queries := []
                      state := "inactive"
                      postExperimentRule :=
                        (p.post_experiment_rule.map fun r => r.rule.getD "continue").getD
                          "continue"
                      revertTo :=
                        if (p.post_experiment_rule.bind fun r => r.rule) = some "assign" then
                          (p.post_experiment_rule.bind fun r => r.condition_code).bind
                            (pyDictGet? conditionCodeToId)
                        else none }
                else .error (.valueError "PostExperimentRule")
              else .error (.valueError "FilterMode")
          else .error (.valueError "AssignmentUnit")
        else .error (.valueError "ConsistencyRule")

end ExperimentBuilders

/-- `_validate_required_params` applied to the create tool's required keys
`['name', 'context', 'decision_points', 'conditions']`: the keys that are
missing (absent or `None`). -/
def createRequiredMissing (p : ActionParams) : List String :=
  (["name", "context", "decision_points", "conditions"].filter fun key =>
    match key with
    | "name" => p.name.isNone
    | "context" => p.context.isNone
    | "decision_points" => p.decision_points.isNone
    | "conditions" => p.conditions.isNone
    | _ => false)

/-- The pre-network part of the registered `create_experiment` tool
(`action_tools.py`): required-parameter validation followed by
`_transform_to_create_experiment_request`; the resulting request is what is
handed to `api_create_experiment`. -/
def createExperimentToolRequest (idGen : Nat → String) (p : ActionParams) :
    Except TransformError CreateExperimentRequest :=
  if createRequiredMissing p ≠ [] then
    .error (.valueError "Missing required parameters")
  else
    ActionTools.transformToCreateExperimentRequest idGen p

/-! ## Partial-update path (`update_experiment`)

`_apply_updates_to_experiment_request` and its helpers.  The helpers below
are textually identical in both files; only `_apply_segments_update`
differs, so it gets one definition per namespace. -/

/-- `_apply_simple_field_updates`: each direct mapping is applied when the
`action_params` key is present; `context` is wrapped into a list. -/
def applySimpleFieldUpdates (r : CreateExperimentRequest) (p : ActionParams) :
    CreateExperimentRequest :=
  let r := match p.name with | some v => { r with name := v } | none => r
  let r := match p.description with | some v => { r with description := v } | none => r
  let r := match p.tags with | some v => { r with tags := v } | none => r
  let r := match p.assignment_unit with | some v => { r with assignmentUnit := v } | none => r
  let r := match p.consistency_rule with | some v => { r with consistencyRule := v } | none => r
  let r := match p.filter_mode with | some v => { r with filterMode := v } | none => r
  let r := match p.group_type with | some v => { r with group := some v } | none => r
  match p.context with | some c => { r with context := [c] } | none => r

/-- `_build_condition_code_to_id_mapping`: the dict comprehension
`{cond.conditionCode: cond.id}` in list order (reads via `pyDictGet?`). -/
def buildConditionCodeToIdMapping (conditions : List CreateCondition) :
    List (String × String) :=
  conditions.map fun c => (c.conditionCode, c.id)

/-- `_apply_conditions_update`: replaces the condition list when a
simplified `conditions` list is supplied (non-empty, entries carrying a
`code` key — always the case for the typed simplified format embedded here)
and returns the `code -> id` table to use for the post-experiment rule. -/
def applyConditionsUpdate (idGen : Nat → String) (r : CreateExperimentRequest)
    (p : ActionParams) : CreateExperimentRequest × List (String × String) :=
  let conditionCodeToId := buildConditionCodeToIdMapping r.conditions
  match p.conditions with
  | some conditionsData =>
    if conditionsData.isEmpty then (r, conditionCodeToId)
    else
      let (conditions, newConditionCodeToId) := createConditions idGen conditionsData
      ({ r with conditions := conditions }, newConditionCodeToId)
  | none => (r, conditionCodeToId)

/-- `_apply_post_experiment_rule_update`: maps the rule name, resolves an
`assign` rule's `condition_code` first through the supplied table and then
through the request's own condition list (first match wins; an unmatched
code is deliberately left alone — "log warning but don't fail"), and clears
`revertTo` for a `continue` rule. -/
def applyPostExperimentRuleUpdate (r : CreateExperimentRequest) (p : ActionParams)
    (conditionCodeToId : List (String × String)) : CreateExperimentRequest :=
  match p.post_experiment_rule with
  | none => r
  | some ruleData =>
    let ruleType := ruleData.rule.getD "continue"
    let r := { r with postExperimentRule := ruleType }
    if ruleType = "assign" ∧ ruleData.condition_code.isSome then
      let conditionCode := ruleData.condition_code.getD ""
      match pyDictGet? conditionCodeToId conditionCode with
      | some i => { r with revertTo := some i }
      | none =>
        match r.conditions.find? fun c => c.conditionCode = conditionCode with
        | some c => { r with revertTo := some c.id }
        | none => r
    else if ruleType = "continue" then { r with revertTo := none }
    else r

namespace ActionTools

/-- `_apply_segments_update` of `src/tools/executor/action_tools.py` (the
copy the registered `update_experiment` tool calls): when any inclusion key
is present it rebuilds the inclusion segment from the supplied values,
defaulting an absent companion key to `[]` (the existing segment data is
not consulted); likewise for exclusion. -/
def applySegmentsUpdate (r : CreateExperimentRequest) (p : ActionParams) :
    CreateExperimentRequest :=
  let r :=
    if p.inclusion_users.isSome ∨ p.inclusion_groups.isSome then
      { r with experimentSegmentInclusion :=
          (createExperimentSegment (some (p.inclusion_users.getD []))
            (some (p.inclusion_groups.getD [])) none none true) }
    else r
  if p.exclusion_users.isSome ∨ p.exclusion_groups.isSome then
    { r with experimentSegmentExclusion :=
        (createExperimentSegment none none (some (p.exclusion_users.getD []))
          (some (p.exclusion_groups.getD [])) false) }
  else r

/-- `_apply_updates_to_experiment_request` of `action_tools.py`. -/
def applyUpdatesToExperimentRequest (idGen : Nat → String)
    (base_request : CreateExperimentRequest) (p : ActionParams) :
    CreateExperimentRequest :=
  let updated := applySimpleFieldUpdates base_request p
  let (updated, conditionCodeToId) := applyConditionsUpdate idGen updated p
  let updated :=
    match p.decision_points with
    | some dps => { updated with partitions := createPartitions idGen dps }
    | none => updated
  let updated := applySegmentsUpdate updated p
  applyPostExperimentRuleUpdate updated p conditionCodeToId

end ActionTools

namespace ExperimentBuilders

/-- `_apply_segments_update` of `src/utils/experiment_builders.py`: the
inclusion segment is rebuilt when any of `inclusion_users`,
`inclusion_groups` or `filter_mode` is present; an override to
`includeAll` forces the sentinel "All" group, otherwise a key that is
absent keeps the existing segment's users/groups; the exclusion segment
likewise preserves whichever of its two keys is absent. -/
def applySegmentsUpdate (r : CreateExperimentRequest) (p : ActionParams) :
    CreateExperimentRequest :=
  let r :=
    if p.inclusion_users.isSome ∨ p.inclusion_groups.isSome ∨ p.filter_mode.isSome then
      let (inclusion_users, inclusion_groups) :=
        if p.filter_mode = some "includeAll" then
          (([] : List String), [({ type := "All", group_id := "All" } : GroupParam)])
        else
          let existing := r.experimentSegmentInclusion.segment
          let existing_users := existing.individualForSegment.map fun ind => ind.userId
          let existing_groups :=
            existing.groupForSegment.map fun grp =>
              ({ type := grp.type, group_id := grp.groupId } : GroupParam)
          (p.inclusion_users.getD existing_users, p.inclusion_groups.getD existing_groups)
      { r with experimentSegmentInclusion :=
          (createExperimentSegment (some inclusion_users) (some inclusion_groups)
            none none true) }
    else r
  if p.exclusion_users.isSome ∨ p.exclusion_groups.isSome then
    let existing := r.experimentSegmentExclusion.segment
    let existing_excl_users := existing.individualForSegment.map fun ind => ind.userId
    let existing_excl_groups :=
      existing.groupForSegment.map fun grp =>
        ({ type := grp.type, group_id := grp.groupId } : GroupParam)
    { r with experimentSegmentExclusion :=
        (createExperimentSegment none none
          (some (p.exclusion_users.getD existing_excl_users))
          (some (p.exclusion_groups.getD existing_excl_groups)) false) }
  else r

/-- `_apply_updates_to_experiment_request` of `experiment_builders.py`
(identical to the `action_tools.py` copy except that it calls this file's
`_apply_segments_update`). -/
def applyUpdatesToExperimentRequest (idGen : Nat → String)
    (base_request : CreateExperimentRequest) (p : ActionParams) :
    CreateExperimentRequest :=
  let updated := applySimpleFieldUpdates base_request p
  let (updated, conditionCodeToId) := applyConditionsUpdate idGen updated p
  let updated :=
    match p.decision_points with
    | some dps => { updated with partitions := createPartitions idGen dps }
    | none => updated
  let updated := applySegmentsUpdate updated p
  applyPostExperimentRuleUpdate updated p conditionCodeToId

end ExperimentBuilders

/-! ## Iterative tool-calling loop (`src/nodes/intelligent_agent.py`)

The language model is embedded as a total function from the accumulated
conversation to its next response; the tool layer is embedded as a function
from a proposed call to an `Except`-valued result (the `except` clause of
`_execute_tool_calls_and_create_tool_messages` serialises a failure into a
textual tool message, so no failure escapes the loop). -/

/-- One proposed tool call `{name, args, id}` (arguments abstracted). -/
structure ToolCall where
  name : String
  args : String
  id : String
deriving DecidableEq

/-- A LangChain message; `ai` carries the proposed tool calls, `tool`
carries one executed result. -/
inductive Message where
  | system (content : String)
  | human (content : String)
  | ai (content : String) (toolCalls : List ToolCall)
  | tool (content : String) (name : String) (toolCallId : String)
deriving DecidableEq

/-- `message.content`. -/
def Message.content : Message → String
  | .system c => c
  | .human c => c
  | .ai c _ => c
  | .tool c _ _ => c

/-- One model response: text plus proposed tool calls. -/
structure ModelResponse where
  content : String
  toolCalls : List ToolCall
deriving DecidableEq

/-- The result `ToolMessage` for one proposed call: the stringified result
on success, the `"Tool ... failed: ..."` string when the call raised. -/
def toolMessageFor (execTool : ToolCall → Except String String) (tc : ToolCall) : Message :=
  match execTool tc with
  | .ok result => .tool result tc.name tc.id
  | .error e => .tool ("Tool " ++ tc.name ++ " failed: " ++ e) tc.name tc.id

/-- `_execute_tool_calls_and_create_tool_messages`: one result message per
proposed call, in proposal order. -/
def executeToolCallsAndCreateToolMessages (execTool : ToolCall → Except String String)
    (response : ModelResponse) : List Message :=
  response.toolCalls.map (toolMessageFor execTool)

/-- `_handle_single_iteration`: invoke the model once; an answer with no
tool calls is final, otherwise every proposed call is executed. -/
def handleSingleIteration (model : List Message → ModelResponse)
    (execTool : ToolCall → Except String String) (conversation : List Message) :
    ModelResponse × List Message :=
  let response := model conversation
  if response.toolCalls.isEmpty then (response, [])
  else (response, executeToolCallsAndCreateToolMessages execTool response)

/-- Result of the loop, instrumented with the number of model invocations
performed and the final accumulated conversation (the source returns only
the `(success, final_response)` pair; the extra components exist so that
the iteration bound can be stated). -/
structure LoopResult where
  success : Bool
  text : String
  invocations : Nat
  conversation : List Message
deriving DecidableEq

/-- The fallback text returned when the conversation is empty at the
iteration bound. -/
def loopFallbackText : String :=
  "I apologize, but I couldn\x27t complete your request within the allowed processing time."

/-- The `while iteration < max_iterations` loop of
`_execute_iterative_tool_calls`, with `fuel = max_iterations - iteration`:
each pass invokes the model, appends its response, returns its text when it
proposed no tool calls, and otherwise appends the tool results and
continues; at the bound the content of the last conversation entry is
returned. -/
def executeIterativeToolCallsGo (model : List Message → ModelResponse)
    (execTool : ToolCall → Except String String) :
    Nat → List Message → LoopResult
  | 0, conversation =>
    { success := true
      text := (conversation.getLast?.map Message.content).getD loopFallbackText
      invocations := 0
      conversation := conversation }
  | fuel + 1, conversation =>
    let (response, toolMessages) := handleSingleIteration model execTool conversation
    let conversation := conversation ++ [Message.ai response.content response.toolCalls]
    if toolMessages.isEmpty then
      { success := true
        text := response.content
        invocations := 1
        conversation := conversation }
    else
      let rest := executeIterativeToolCallsGo model execTool fuel (conversation ++ toolMessages)
      { rest with invocations := rest.invocations + 1 }

/-- `_execute_iterative_tool_calls` of `src/nodes/intelligent_agent.py`
(instrumented form; `max_iterations` defaults to 10 at the call site). -/
def executeIterativeToolCalls (model : List Message → ModelResponse)
    (execTool : ToolCall → Except String String) (messages : List Message)
    (maxIterations : Nat) : LoopResult :=
  executeIterativeToolCallsGo model execTool maxIterations messages

/-- The pair actually returned by the source function. -/
def executeIterativeToolCallsResult (model : List Message → ModelResponse)
    (execTool : ToolCall → Except String String) (messages : List Message)
    (maxIterations : Nat) : Bool × String :=
  let r := executeIterativeToolCalls model execTool messages maxIterations
  (r.success, r.text)

/-! ## The five-node router graph (`src/graph/builder.py`)

`build_upgrade_agent_graph` wires `conversation_analyzer`,
`information_gatherer`, `confirmation_handler`, `tool_executor` and
`response_generator`, with the routing functions defined next to each node
in `src/nodes/*.py`.  The shared `AgentState` is embedded with the fields
the nodes and routing functions read or write; LLM behaviour inside a node
is a nondeterministic choice ranging over exactly the updates that node's
code (through its registered tools) can produce.  Dict-valued state fields
whose contents the router never inspects (`action_params`,
`gathered_info`, `errors`) are embedded as string association lists, and
`execution_log` entries as opaque strings. -/

/-- The five nodes. -/
inductive NodeId where
  | analyzer
  | gatherer
  | confirmation
  | executor
  | response
deriving DecidableEq

/-- `AgentState` of `src/graph/state.py` (claim-relevant fields;
`user_input`, `conversation_history`, `confidence`,
`user_request_summary`, the cached catalog fields and `final_response` are
never read by any routing function or claim and are omitted). -/
structure GraphState where
  current_state : String
  intent_type : Option String
  action_needed : Option String
  action_params : List (String × String)
  missing_params : List String
  needs_confirmation : Bool
  confirmation_message : Option String
  user_confirmed : Option Bool
  gathered_info : List (String × String)
  execution_log : List String
  errors : List (String × String)
  conversation_complete : Bool
deriving DecidableEq

/-- `create_initial_state` of `src/graph/state.py` (note
`user_confirmed = False`, not `None`). -/
def createInitialState : GraphState :=
  { current_state := "ANALYZING"
    intent_type := none
    action_needed := none
    action_params := []
    missing_params := []
    needs_confirmation := false
    confirmation_message := none
    user_confirmed := some false
    gathered_info := []
    execution_log := []
    errors := []
    conversation_complete := false }

/-- A partial state update, as returned by a node (a `none` field is a key
absent from the returned dict; LangGraph merges present keys into the
state).  Keys whose Python value may itself be `None` are doubly
optional. -/
structure NodeUpdate where
  current_state : Option String := none
  intent_type : Option (Option String) := none
  action_needed : Option (Option String) := none
  action_params : Option (List (String × String)) := none
  missing_params : Option (List String) := none
  needs_confirmation : Option Bool := none
  confirmation_message : Option (Option String) := none
  user_confirmed : Option (Option Bool) := none
  gathered_info : Option (List (String × String)) := none
  execution_log : Option (List String) := none
  errors : Option (List (String × String)) := none
  conversation_complete : Option Bool := none
deriving DecidableEq

/-- Merge a node's partial update into the state (LangGraph channel
update). -/
def applyUpdate (s : GraphState) (u : NodeUpdate) : GraphState :=
  { current_state := u.current_state.getD s.current_state
    intent_type := u.intent_type.getD s.intent_type
    action_needed := u.action_needed.getD s.action_needed
    action_params := u.action_params.getD s.action_params
    missing_params := u.missing_params.getD s.missing_params
    needs_confirmation := u.needs_confirmation.getD s.needs_confirmation
    confirmation_message := u.confirmation_message.getD s.confirmation_message
    user_confirmed := u.user_confirmed.getD s.user_confirmed
    gathered_info := u.gathered_info.getD s.gathered_info
    execution_log := u.execution_log.getD s.execution_log
    errors := u.errors.getD s.errors
    conversation_complete := u.conversation_complete.getD s.conversation_complete }

/-! ### Conversation analyzer (`src/nodes/analyzer.py`) -/

/-- The two values of the `analyze_user_request` tool's `intent_type`
literal. -/
inductive IntentLit where
  | direct_answer
  | needs_info
deriving DecidableEq

/-- The intent string stored in state. -/
def IntentLit.str : IntentLit → String
  | .direct_answer => "direct_answer"
  | .needs_info => "needs_info"

/-- What the analyzer's LLM turn can do: make no tool call, make a call to
an unknown tool or have the call raise, crash the node, or run
`analyze_user_request` with an intent classification and an optional
`user_confirmed` verdict (the tool writes `user_confirmed` only when the
argument is not `None`, so the analyzer can set it to a boolean but can
never reset it to `None`). -/
inductive AnalyzerChoice where
  | noToolCalls
  | toolFailed (msg : String)
  | classified (intent : IntentLit) (userConfirmed : Option Bool)
  | crashed (msg : String)
deriving DecidableEq

/-- `analyzer_node`: the returned update dictionary for each outcome.  On a
successful tool run the node copies `intent_type` and `user_confirmed`
back out of the (mutated) global state and picks the next `current_state`
from the classified intent. -/
def analyzerNode (s : GraphState) (c : AnalyzerChoice) : NodeUpdate :=
  match c with
  | .noToolCalls =>
    { current_state := some "RESPONDING", intent_type := some (some "direct_answer") }
  | .toolFailed msg =>
    { current_state := some "RESPONDING"
      errors := some (pyDictSet s.errors "analyzer" msg) }
  | .classified intent userConfirmed =>
    { current_state :=
        some (if intent = .needs_info then "GATHERING_INFO" else "RESPONDING")
      intent_type := some (some intent.str)
      user_confirmed :=
        some (match userConfirmed with | some b => some b | none => s.user_confirmed) }
  | .crashed msg =>
    { current_state := some "RESPONDING"
      errors := some (pyDictSet s.errors "analyzer" msg) }

/-- `analyzer_routing` of `src/nodes/analyzer.py` (the routing function the
builder wires): a pending confirmation with a non-`None` verdict routes to
the executor or the response generator; otherwise routing follows the
classified intent.  Note that `missing_params` is never consulted. -/
def analyzerRouting (s : GraphState) : NodeId :=
  if s.needs_confirmation && s.user_confirmed.isSome then
    if s.user_confirmed == some true then .executor else .response
  else if !s.execution_log.isEmpty && s.current_state == "ANALYZING" then .response
  else if s.intent_type == some "direct_answer" then .response
  else if s.intent_type == some "needs_info" then .gatherer
  else .response

/-! ### Information gatherer (`src/nodes/gatherer.py`) -/

/-- What the gatherer's LLM turn can do through its registered tools:
`set_action_needed` (only ever to an action name, never back to `None`),
`set_action_params` / `update_action_params`, `set_missing_params`,
`add_error`, and the read-only API tools that populate `gathered_info`;
or fail.  A `none` component means the corresponding tool was not
called. -/
inductive GathererChoice where
  | crashed (msg : String)
  | noToolCalls
  | iterFailed (msg : String)
  | ran (setAction : Option String) (setParams : Option (List (String × String)))
      (setMissing : Option (List String)) (addErrors : List (String × String))
      (gathered : List (String × String))
deriving DecidableEq

/-- `gatherer_node`: the returned update for each outcome; on a successful
run the action fields are copied back out of the global state and
`current_state` becomes `CONFIRMING` exactly when an action is pending. -/
def gathererNode (s : GraphState) (c : GathererChoice) : NodeUpdate :=
  match c with
  | .crashed msg =>
    { current_state := some "RESPONDING"
      errors := some (pyDictSet s.errors "gatherer" msg) }
  | .noToolCalls => { current_state := some "RESPONDING" }
  | .iterFailed msg =>
    { current_state := some "RESPONDING"
      errors := some (pyDictSet s.errors "gatherer" msg) }
  | .ran setAction setParams setMissing addErrors gathered =>
    let action := match setAction with | some a => some a | none => s.action_needed
    let missing := setMissing.getD s.missing_params
    let errors := addErrors.foldl (fun m e => pyDictSet m e.1 e.2) s.errors
    { current_state := some (if action.isSome then "CONFIRMING" else "RESPONDING")
      action_needed := some action
      action_params := some (setParams.getD s.action_params)
      missing_params := some missing
      gathered_info := some (gathered.foldl (fun m e => pyDictSet m e.1 e.2) s.gathered_info)
      errors := some errors }

/-- `gatherer_routing` of `src/nodes/gatherer.py`: an action with no
missing parameters goes to confirmation; otherwise (missing parameters,
errors, gathered information, or nothing) to the response generator. -/
def gathererRouting (s : GraphState) : NodeId :=
  if s.action_needed.isSome && s.missing_params.isEmpty then .confirmation
  else if !s.missing_params.isEmpty || !s.errors.isEmpty then .response
  else if !s.gathered_info.isEmpty then .response
  else .response

/-! ### Confirmation handler (`src/nodes/confirmation.py`) -/

/-- The exception taxonomy of `src/exceptions/exceptions.py` (the members
this development refers to). -/
inductive UpGradeError where
  | validation (msg : String)
  | api (msg : String)
  | auth (msg : String)
  | notFound (msg : String)
deriving DecidableEq

/-- `params.get(key, default)` for the abstract parameter table. -/
def pyGetStr (m : List (String × String)) (key default : String) : String :=
  (pyDictGet? m key).getD default

/-- `_get_experiment_name`: the `experiment_name` or `name` parameter,
falling back to the experiment id. -/
def getExperimentName (params : List (String × String)) : String :=
  let experiment_name := pyGetStr params "experiment_name" (pyGetStr params "name" "Unknown")
  if experiment_name = "Unknown" ∧ (pyDictGet? params "experiment_id").isSome then
    "ID: " ++ pyGetStr params "experiment_id" ""
  else experiment_name

/-- `_generate_experiment_confirmation` (action names are the
`ToolActionType` string values; nested parameter dictionaries are
flattened with dotted keys in the abstract parameter table). -/
def generateExperimentConfirmation (action : String) (params : List (String × String)) :
    String :=
  if action = "create_experiment" then
    "Create experiment \x27" ++ pyGetStr params "name" "Unknown" ++ "\x27 in context \x27" ++
      pyGetStr params "context" "Unknown" ++ "\x27?"
  else if action = "delete_experiment" then
    "⚠️ PERMANENTLY DELETE experiment \x27" ++ getExperimentName params ++
      "\x27? This cannot be undone!"
  else if action = "update_experiment" then
    "Update experiment \x27" ++ getExperimentName params ++ "\x27 with new settings?"
  else if action = "update_experiment_status" then
    "Change experiment \x27" ++ getExperimentName params ++ "\x27 status to \x27" ++
      pyGetStr params "status" "unknown" ++ "\x27?"
  else ""

/-- `_generate_user_simulation_confirmation`. -/
def generateUserSimulationConfirmation (action : String) (params : List (String × String)) :
    String :=
  if action = "init_experiment_user" then
    "Initialize user \x27" ++ pyGetStr params "user_id" "unknown" ++
      "\x27 for experiment simulation in context \x27" ++
      pyGetStr params "context" "unknown" ++ "\x27?"
  else if action = "get_decision_point_assignments" then
    "Get condition assignments for user \x27" ++ pyGetStr params "user_id" "unknown" ++
      "\x27 in context \x27" ++ pyGetStr params "context" "unknown" ++ "\x27?"
  else if action = "mark_decision_point" then
    "Mark decision point \x27" ++ pyGetStr params "decision_point" "unknown" ++
      "\x27 visit for user \x27" ++ pyGetStr params "user_id" "unknown" ++
      "\x27 in experiment \x27" ++
      pyGetStr params "assigned_condition.experiment_id" "unknown" ++ "\x27?"
  else ""

/-- `_generate_confirmation_message`: one template per action family, with
a generic fallback. -/
def generateConfirmationMessage (action : String) (params : List (String × String)) :
    String :=
  if action ∈ ["create_experiment", "delete_experiment", "update_experiment",
      "update_experiment_status"] then
    generateExperimentConfirmation action params
  else if action ∈ ["init_experiment_user", "get_decision_point_assignments",
      "mark_decision_point"] then
    generateUserSimulationConfirmation action params
  else
    "Execute action \x27" ++ action ++ "\x27 with the provided parameters?"

/-- `confirmation_handler` of `src/nodes/confirmation.py`.  The codomain is
`Except UpGradeError` so that a raised exception would be observable; the
source never raises: with no pending action it returns a `RESPONDING`
update that records `errors["confirmation"]`, and the `try` around message
generation converts any failure into an error update as well (the embedded
generator is total, so that branch is unreachable). -/
def confirmationHandler (s : GraphState) : Except UpGradeError NodeUpdate :=
  match s.action_needed with
  | none =>
    .ok { current_state := some "RESPONDING"
          errors := some (pyDictSet s.errors "confirmation"
            "No action specified for confirmation") }
  | some action =>
    .ok { current_state := some "CONFIRMING"
          needs_confirmation := some true
          confirmation_message :=
            some (some (generateConfirmationMessage action s.action_params)) }

/-- The update the confirmation node contributes to the graph (the handler
never returns `.error`, so the fallback branch is vacuous). -/
def confirmationHandlerUpdate (s : GraphState) : NodeUpdate :=
  match confirmationHandler s with
  | .ok u => u
  | .error _ => {}

/-! ### Tool executor (`src/nodes/executor.py`) -/

/-- Character-list prefix test. -/
def charsPrefixOf : List Char → List Char → Bool
  | [], _ => true
  | _ :: _, [] => false
  | a :: as, b :: bs => a == b && charsPrefixOf as bs

/-- Character-list infix test. -/
def charsInfixOf (needle : List Char) : List Char → Bool
  | [] => charsPrefixOf needle []
  | b :: bs => charsPrefixOf needle (b :: bs) || charsInfixOf needle bs

/-- Python `needle in haystack` on strings. -/
def strContains (haystack needle : String) : Bool :=
  charsInfixOf needle.toList haystack.toList

/-- The error-type classification of `tool_executor`'s `except` branch. -/
def classifyExecutionError (error_message : String) : String :=
  let lower := error_message.toLower
  if strContains lower "authentication" || strContains lower "unauthorized" then "auth"
  else if strContains lower "not found" || strContains error_message "404" then "not_found"
  else if strContains lower "validation" || strContains lower "invalid" ||
      strContains lower "missing required parameters" || strContains lower "required" then
    "validation"
  else if strContains lower "api" || strContains lower "request" then "api"
  else "unknown"

/-- `tool_executor` of `src/nodes/executor.py`.  The remote execution
(`_execute_action`, an API call) is an external collaborator and enters as
the `outcome` parameter.  Both the success and the failure branch clear the
pending action and the whole confirmation state; the execution-log append
performed by the tool function through the global state reference is
folded into the returned update. -/
def toolExecutor (s : GraphState) (outcome : Except String String) : NodeUpdate :=
  match s.action_needed with
  | none =>
    { current_state := some "RESPONDING"
      errors := some (pyDictSet s.errors "executor" "No action specified for execution") }
  | some action =>
    match outcome with
    | .ok result =>
      { current_state := some "ANALYZING"
        action_needed := some none
        action_params := some []
        needs_confirmation := some false
        confirmation_message := some none
        user_confirmed := some none
        gathered_info := some (pyDictSet s.gathered_info "last_execution_result" result)
        execution_log := some (s.execution_log ++ [action]) }
    | .error e =>
      { current_state := some "RESPONDING"
        errors := some (pyDictSet s.errors (classifyExecutionError e)
          ("Execution failed: " ++ e))
        action_needed := some none
        action_params := some []
        needs_confirmation := some false
        confirmation_message := some none
        user_confirmed := some none
        execution_log := some (s.execution_log ++ [action]) }

/-! ### Response generator (`src/nodes/response.py`) -/

/-- What the response generator's LLM turn can do: produce a final text
(directly or through its read-only tools), or crash. -/
inductive ResponseChoice where
  | generated (finalText : String)
  | crashed (msg : String)
deriving DecidableEq

/-- The `should_not_complete` guard of `response_generator_node`. -/
def responseShouldNotComplete (s : GraphState) : Bool :=
  (s.needs_confirmation && s.user_confirmed.isNone) || !s.missing_params.isEmpty

/-- The `conversation_complete` computation of `response_generator_node`. -/
def responseComplete (s : GraphState) : Bool :=
  if responseShouldNotComplete s then false
  else
    (s.intent_type == some "direct_answer") || (s.user_confirmed == some false) ||
      (!s.execution_log.isEmpty && s.errors.isEmpty) ||
      (!s.errors.isEmpty && s.missing_params.isEmpty) ||
      (s.intent_type == some "needs_info" && s.action_needed.isNone &&
        s.missing_params.isEmpty)

/-- `response_generator_node`: the returned update (the `final_response`
text itself is not part of the embedded state; the `finalText` component of
the choice records it for fidelity). -/
def responseNode (s : GraphState) (c : ResponseChoice) : NodeUpdate :=
  match c with
  | .generated _ =>
    { conversation_complete := some (responseComplete s)
      current_state := some "RESPONDING" }
  | .crashed msg =>
    { conversation_complete := some true
      current_state := some "RESPONDING"
      errors := some (pyDictSet s.errors "response" msg) }

/-! ### The wired graph -/

/-- A point of control: which node runs next, on which state. -/
structure Config where
  node : NodeId
  state : GraphState
deriving DecidableEq

/-- One transition of the compiled graph: run the node at the current
config (with a nondeterministic choice where the node consults the LLM or
the remote service) and follow the routing function the builder wires for
it.  `confirmation_routing` always goes to the response generator and
`executor_routing` always back to the analyzer.  From the response
generator, an incomplete conversation routes to the analyzer within the
same run, and a complete conversation ends the run at `END` — after which
the next user turn re-enters the (checkpointed) graph at the analyzer
entry point with the state persisted, so both cases continue at the
analyzer. -/
inductive Step : Config → Config → Prop where
  | analyzer (s : GraphState) (c : AnalyzerChoice) (s' : GraphState) (n : NodeId)
      (hs : s' = applyUpdate s (analyzerNode s c)) (hn : n = analyzerRouting s') :
      Step ⟨.analyzer, s⟩ ⟨n, s'⟩
  | gatherer (s : GraphState) (c : GathererChoice) (s' : GraphState) (n : NodeId)
      (hs : s' = applyUpdate s (gathererNode s c)) (hn : n = gathererRouting s') :
      Step ⟨.gatherer, s⟩ ⟨n, s'⟩
  | confirmation (s : GraphState) (s' : GraphState)
      (hs : s' = applyUpdate s (confirmationHandlerUpdate s)) :
      Step ⟨.confirmation, s⟩ ⟨.response, s'⟩
  | executor (s : GraphState) (outcome : Except String String) (s' : GraphState)
      (hs : s' = applyUpdate s (toolExecutor s outcome)) :
      Step ⟨.executor, s⟩ ⟨.analyzer, s'⟩
  | response (s : GraphState) (c : ResponseChoice) (s' : GraphState)
      (hs : s' = applyUpdate s (responseNode s c)) :
      Step ⟨.response, s⟩ ⟨.analyzer, s'⟩

/-- Configurations reachable from the session's initial state at the
graph's entry point (`conversation_analyzer`). -/
def Reachable (cfg : Config) : Prop :=
  Relation.ReflTransGen Step ⟨.analyzer, createInitialState⟩ cfg

/-! ## Concrete instances

Inputs, states and traces used by the concrete theorems below. -/

/-- A deterministic stand-in for the `uuid4()` id supply, used by the
concrete witnesses below. -/
def someIdGen : Nat → String := fun n => "id-" ++ toString n

def c1Conditions : List CondParam :=
  [{ code := "a", weight := 60, name := none }, { code := "b", weight := 60, name := none }]

/-- Create-experiment parameters whose condition weights sum to 120. -/
def c1Params : ActionParams :=
  { name := some "Exp"
    context := some "ctx"
    decision_points :=
      some [{ site := "S", target := some "T", exclude_if_reached := some false }]
    conditions := some c1Conditions }

def c2Params : ActionParams :=
  { name := some "Exp1"
    context := some "ctx"
    decision_points :=
      some [{ site := "S", target := some "T", exclude_if_reached := some false }]
    conditions := some [{ code := "control", weight := 60, name := none },
                        { code := "treatment", weight := 40, name := none }]
    filter_mode := some "includeAll"
    inclusion_users := some ["u1"] }

/-- A base request (as obtained by converting a fetched experiment) with a
non-empty inclusion group list. -/
def c3Base : CreateExperimentRequest :=
  { name := "Base"
    description := ""
    consistencyRule := "individual"
    assignmentUnit := "individual"
    group := none
    type := "Simple"
    context := ["ctx"]
    assignmentAlgorithm := "random"
    tags := []
    conditions := [{ id := "cid-1", twoCharacterId := none, conditionCode := "control",
                     assignmentWeight := 100, description := none, order := 0,
                     name := some "control", levelCombinationElements := none }]
    partitions := []
    experimentSegmentInclusion :=
      { segment := { individualForSegment := [{ userId := "u0" }]
                     groupForSegment := [{ groupId := "g1", type := "schoolId" }]
                     subSegments := []
                     type := "private" } }
    experimentSegmentExclusion :=
      { segment := { individualForSegment := []
                     groupForSegment := []
                     subSegments := []
                     type := "private" } }
    filterMode := "excludeAll"
    queries := []
    state := "inactive"
    postExperimentRule := "continue"
    revertTo := some "stale-id" }

/-- A partial-update override that mentions `inclusion_users` but not
`inclusion_groups` (and does not override `filter_mode`). -/
def c3Override : ActionParams := { inclusion_users := some ["u2"] }

/-- Create parameters whose `post_experiment_rule` asks to assign a
condition code matching no condition. -/
def c4Params : ActionParams :=
  { name := some "Exp"
    context := some "ctx"
    decision_points :=
      some [{ site := "S", target := some "T", exclude_if_reached := some false }]
    conditions := some [{ code := "control", weight := 50, name := none },
                        { code := "treatment", weight := 50, name := none }]
    post_experiment_rule := some { rule := some "assign", condition_code := some "zzz" } }

/-- Create parameters with an `assign` rule matching the `treatment`
condition. -/
def c4MatchedParams : ActionParams :=
  { name := some "Exp"
    context := some "ctx"
    decision_points :=
      some [{ site := "S", target := some "T", exclude_if_reached := some false }]
    conditions := some [{ code := "control", weight := 50, name := none },
                        { code := "treatment", weight := 50, name := none }]
    post_experiment_rule :=
      some { rule := some "assign", condition_code := some "treatment" } }

/-- The request the create transformation builds for `c4MatchedParams`. -/
def c4WitRequest : CreateExperimentRequest :=
  (ActionTools.transformToCreateExperimentRequest someIdGen c4MatchedParams).toOption.getD
    c3Base

/-- An override carrying a bare `continue` rule. -/
def c4ContinueParams : ActionParams :=
  { post_experiment_rule := some { rule := some "continue", condition_code := none } }

/-- An override carrying an `assign` rule for `treatment`. -/
def c4AssignParams : ActionParams :=
  { post_experiment_rule :=
      some { rule := some "assign", condition_code := some "treatment" } }

/-- Number of AI messages in a conversation (used by the concrete
adversarial model below to index its responses). -/
def countAI (conv : List Message) : Nat :=
  conv.countP fun m => match m with | .ai _ _ => true | _ => false

/-- A concrete adversarial model: its `k`-th response has text `r<k>` and
proposes one tool call with id `c<k>`. -/
def c7Model (conv : List Message) : ModelResponse :=
  let n := countAI conv + 1
  { content := "r" ++ toString n
    toolCalls := [{ name := "t", args := "", id := "c" ++ toString n }] }

/-- A concrete tool layer: call `c<k>` returns the text `TR-c<k>`. -/
def c7Exec (tc : ToolCall) : Except String String := .ok ("TR-" ++ tc.id)

/-- The initial conversation of the loop. -/
def c7Messages : List Message := [.system "sys", .human "User input: hi"]

/-- The initial state with a pending delete action, for the witnesses. -/
def pendingDeleteState : GraphState :=
  { createInitialState with
      action_needed := some "delete_experiment"
      action_params := [("experiment_id", "e-1")] }

/-! ### A reachable execution violating the `missing_params` guard

Turn 1: the user asks to create an experiment; the gatherer readies the
action, the confirmation prompt is shown, the user confirms, the action
executes (this clears `user_confirmed` to `None`).  Turn 2: the user asks
for an update; a new confirmation becomes pending while `user_confirmed`
is still `None`, so the analyzer's confirmation guard does not fire and a
further gathering round marks a parameter missing.  Turn 3: the user says
"yes"; the analyzer records `user_confirmed = True` and the router sends
the pending action — with non-empty `missing_params` — to the tool
executor. -/
def c6s1 : GraphState :=
  applyUpdate createInitialState
    (analyzerNode createInitialState (.classified .needs_info none))

def c6s2 : GraphState :=
  applyUpdate c6s1 (gathererNode c6s1 (.ran (some "create_experiment") none (some []) [] []))

def c6s3 : GraphState := applyUpdate c6s2 (confirmationHandlerUpdate c6s2)

def c6s4 : GraphState := applyUpdate c6s3 (responseNode c6s3 (.generated "confirm?"))

def c6s5 : GraphState :=
  applyUpdate c6s4 (analyzerNode c6s4 (.classified .direct_answer (some true)))

def c6s6 : GraphState := applyUpdate c6s5 (toolExecutor c6s5 (.ok "created"))

def c6s7 : GraphState :=
  applyUpdate c6s6 (analyzerNode c6s6 (.classified .needs_info none))

def c6s8 : GraphState :=
  applyUpdate c6s7 (gathererNode c6s7 (.ran (some "update_experiment") none none [] []))

def c6s9 : GraphState := applyUpdate c6s8 (confirmationHandlerUpdate c6s8)

def c6s10 : GraphState := applyUpdate c6s9 (responseNode c6s9 (.generated "confirm?"))

def c6s11 : GraphState :=
  applyUpdate c6s10 (analyzerNode c6s10 (.classified .needs_info none))

def c6s12 : GraphState :=
  applyUpdate c6s11 (gathererNode c6s11 (.ran none none (some ["status"]) [] []))

def c6s13 : GraphState := applyUpdate c6s12 (responseNode c6s12 (.generated "which status?"))

def c6s14 : GraphState :=
  applyUpdate c6s13 (analyzerNode c6s13 (.classified .direct_answer (some true)))


/-! ## Supporting lemmas -/

theorem createConditionsGo_weights (idGen : Nat → String) :
    ∀ (i : Nat) (cs : List CondParam),
      ((createConditionsGo idGen i cs).1.map fun c => c.assignmentWeight) =
        cs.map fun c => c.weight
  | _, [] => rfl
  | i, c :: rest => by
    simp only [createConditionsGo, List.map_cons]
    exact congrArg _ (createConditionsGo_weights idGen (i + 1) rest)

theorem createConditions_weights (idGen : Nat → String) (cs : List CondParam) :
    ((createConditions idGen cs).1.map fun c => c.assignmentWeight) =
      cs.map fun c => c.weight :=
  createConditionsGo_weights idGen 0 cs

theorem createConditionsGo_codes (idGen : Nat → String) :
    ∀ (i : Nat) (cs : List CondParam),
      ((createConditionsGo idGen i cs).1.map fun c => c.conditionCode) =
        cs.map fun c => c.code
  | _, [] => rfl
  | i, c :: rest => by
    simp only [createConditionsGo, List.map_cons]
    exact congrArg _ (createConditionsGo_codes idGen (i + 1) rest)

theorem transform_ok_fields (idGen : Nat → String) (p : ActionParams)
    (r : CreateExperimentRequest)
    (h : ActionTools.transformToCreateExperimentRequest idGen p = .ok r) :
    ∃ cs, p.conditions = some cs ∧
      r.conditions = (createConditions idGen cs).1 ∧
      r.revertTo =
        (if (p.post_experiment_rule.bind fun rd => rd.rule) = some "assign" then
          ((p.post_experiment_rule.bind fun rd => rd.condition_code).bind
            (pyDictGet? (createConditions idGen cs).2))
        else none) := by
  unfold ActionTools.transformToCreateExperimentRequest at h
  cases hc : p.conditions with
  | none => rw [hc] at h; cases h
  | some cs =>
  cases hd : p.decision_points with
  | none => simp only [hc, hd] at h; cases h
  | some dps =>
  cases hn : p.name with
  | none => simp only [hc, hd, hn] at h; cases h
  | some nm =>
  cases hctx : p.context with
  | none =>
    simp only [hc, hd, hn, hctx] at h
    split at h
    · split at h <;> cases h
    · cases h
  | some ctx =>
    simp only [hc, hd, hn, hctx] at h
    refine ⟨cs, rfl, ?_⟩
    split at h
    · split at h
      · split at h
        · split at h
          · cases h; exact ⟨rfl, rfl⟩
          · cases h
        · cases h
      · cases h
    · cases h

theorem createConditionsGo_table_sound (idGen : Nat → String) :
    ∀ (i : Nat) (cs : List CondParam) (code v : String),
      pyDictGet? (createConditionsGo idGen i cs).2 code = some v →
      ∃ cond ∈ (createConditionsGo idGen i cs).1, cond.conditionCode = code ∧ cond.id = v
  | i, [], code, v => by
    intro h
    simp [createConditionsGo, pyDictGet?] at h
  | i, c :: rest, code, v => by
    intro h
    simp only [createConditionsGo, pyDictGet?] at h
    cases hrec : pyDictGet? (createConditionsGo idGen (i + 1) rest).2 code with
    | some x =>
      rw [hrec] at h
      injection h with hxv
      subst hxv
      obtain ⟨cond, hmem, hcode, hid⟩ :=
        createConditionsGo_table_sound idGen (i + 1) rest code x hrec
      exact ⟨cond, List.mem_cons_of_mem _ hmem, hcode, hid⟩
    | none =>
      rw [hrec] at h
      by_cases hcc : c.code = code
      · rw [if_pos hcc] at h
        injection h with hv
        exact ⟨_, List.mem_cons_self _ _, hcc, hv⟩
      · rw [if_neg hcc] at h
        cases h

theorem createConditionsGo_table_complete (idGen : Nat → String) :
    ∀ (i : Nat) (cs : List CondParam) (code : String),
      (∃ q ∈ cs, q.code = code) → (pyDictGet? (createConditionsGo idGen i cs).2 code).isSome
  | _, [], code => by
    rintro ⟨q, hq, _⟩
    exact absurd hq (List.not_mem_nil q)
  | i, c :: rest, code => by
    rintro ⟨q, hq, hcode⟩
    simp only [createConditionsGo, pyDictGet?]
    cases hrec : pyDictGet? (createConditionsGo idGen (i + 1) rest).2 code with
    | some x => simp
    | none =>
      rcases List.mem_cons.mp hq with rfl | hmem
      · simp [hcode]
      · have hrest :=
          createConditionsGo_table_complete idGen (i + 1) rest code ⟨q, hmem, hcode⟩
        rw [hrec] at hrest
        simp at hrest

theorem executeIterativeToolCallsGo_bounded (model : List Message → ModelResponse)
    (execTool : ToolCall → Except String String) :
    ∀ (fuel : Nat) (conversation : List Message),
      (executeIterativeToolCallsGo model execTool fuel conversation).invocations ≤ fuel ∧
      (executeIterativeToolCallsGo model execTool fuel conversation).success = true
  | 0, _ => ⟨Nat.le_refl 0, rfl⟩
  | fuel + 1, conversation => by
    simp only [executeIterativeToolCallsGo]
    split
    · exact ⟨Nat.succ_le_succ (Nat.zero_le fuel), rfl⟩
    · obtain ⟨h1, h2⟩ := executeIterativeToolCallsGo_bounded model execTool fuel
        ((conversation ++
            [Message.ai (handleSingleIteration model execTool conversation).1.content
              (handleSingleIteration model execTool conversation).1.toolCalls]) ++
          (handleSingleIteration model execTool conversation).2)
      exact ⟨Nat.succ_le_succ h1, h2⟩

theorem toolMessages_getLast (execTool : ToolCall → Except String String) :
    ∀ (tcs : List ToolCall), tcs ≠ [] →
      ∃ c n i, (tcs.map (toolMessageFor execTool)).getLast? = some (.tool c n i)
  | [], h => absurd rfl h
  | [tc], _ => by
    simp only [List.map_cons, List.map_nil, List.getLast?_singleton]
    unfold toolMessageFor
    cases execTool tc with
    | ok r => exact ⟨r, tc.name, tc.id, rfl⟩
    | error e => exact ⟨"Tool " ++ tc.name ++ " failed: " ++ e, tc.name, tc.id, rfl⟩
  | tc :: tc2 :: rest, _ => by
    obtain ⟨c, n, i, h⟩ := toolMessages_getLast execTool (tc2 :: rest) (by simp)
    exact ⟨c, n, i, by simpa [List.getLast?_cons_cons] using h⟩

theorem executeIterativeToolCallsGo_adversarial (model : List Message → ModelResponse)
    (execTool : ToolCall → Except String String)
    (hadv : ∀ conv, (model conv).toolCalls ≠ []) :
    ∀ (fuel : Nat) (conversation : List Message), 1 ≤ fuel →
      (executeIterativeToolCallsGo model execTool fuel conversation).invocations = fuel ∧
      ∃ c n i,
        (executeIterativeToolCallsGo model execTool fuel
            conversation).conversation.getLast? = some (.tool c n i) ∧
        (executeIterativeToolCallsGo model execTool fuel conversation).text = c
  | 0, _, h => absurd h (by simp)
  | fuel + 1, conversation, _ => by
    have hne : ((model conversation).toolCalls.isEmpty) = false := by
      cases hc : (model conversation).toolCalls with
      | nil => exact absurd hc (hadv conversation)
      | cons a l => rfl
    have hmapne : (model conversation).toolCalls.map (toolMessageFor execTool) ≠ [] := by
      cases hc : (model conversation).toolCalls with
      | nil => exact absurd hc (hadv conversation)
      | cons a l => simp
    have hmapempty :
        ((model conversation).toolCalls.map (toolMessageFor execTool)).isEmpty = false := by
      cases hc : (model conversation).toolCalls with
      | nil => exact absurd hc (hadv conversation)
      | cons a l => simp
    simp only [executeIterativeToolCallsGo, handleSingleIteration,
      executeToolCallsAndCreateToolMessages, hne, Bool.false_eq_true, if_false,
      hmapempty]
    rcases Nat.eq_zero_or_pos fuel with rfl | hpos
    · simp only [executeIterativeToolCallsGo]
      refine ⟨by first | rfl | trivial, ?_⟩
      obtain ⟨c, n, i, hlast⟩ :=
        toolMessages_getLast execTool (model conversation).toolCalls (hadv conversation)
      have happ :
          ((conversation ++ [Message.ai (model conversation).content
              (model conversation).toolCalls]) ++
            (model conversation).toolCalls.map (toolMessageFor execTool)).getLast? =
            ((model conversation).toolCalls.map (toolMessageFor execTool)).getLast? :=
        List.getLast?_append_of_ne_nil _ hmapne
      refine ⟨c, n, i, ?_, ?_⟩
      · rw [happ, hlast]
      · rw [happ, hlast]
        rfl
    · obtain ⟨h1, c, n, i, h2, h3⟩ :=
        executeIterativeToolCallsGo_adversarial model execTool hadv fuel
          ((conversation ++ [Message.ai (model conversation).content
              (model conversation).toolCalls]) ++
            (model conversation).toolCalls.map (toolMessageFor execTool)) hpos
      exact ⟨by rw [h1], c, n, i, h2, h3⟩

theorem analyzerRouting_executor (s : GraphState) (h : analyzerRouting s = .executor) :
    s.user_confirmed = some true := by
  unfold analyzerRouting at h
  split_ifs at h with h1 h2
  · simp only [beq_iff_eq] at h2
    exact h2

theorem gathererRouting_ne_executor (s : GraphState) : gathererRouting s ≠ .executor := by
  unfold gathererRouting
  split_ifs <;> intro h <;> cases h

theorem c6_reach_first_executor : Reachable { node := .executor, state := c6s5 } := by
  unfold Reachable
  refine .head
    (Step.analyzer createInitialState (.classified .needs_info none) c6s1 .gatherer rfl
      (by decide)) ?_
  refine .head
    (Step.gatherer c6s1 (.ran (some "create_experiment") none (some []) [] []) c6s2
      .confirmation rfl (by decide)) ?_
  refine .head (Step.confirmation c6s2 c6s3 rfl) ?_
  refine .head (Step.response c6s3 (.generated "confirm?") c6s4 rfl) ?_
  refine .head
    (Step.analyzer c6s4 (.classified .direct_answer (some true)) c6s5 .executor rfl
      (by decide)) ?_
  exact .refl

theorem c6_reach_bad_executor : Reachable { node := .executor, state := c6s14 } := by
  have h5 := c6_reach_first_executor
  unfold Reachable at h5 ⊢
  refine h5.trans ?_
  refine .head (Step.executor c6s5 (.ok "created") c6s6 rfl) ?_
  refine .head
    (Step.analyzer c6s6 (.classified .needs_info none) c6s7 .gatherer rfl (by decide)) ?_
  refine .head
    (Step.gatherer c6s7 (.ran (some "update_experiment") none none [] []) c6s8
      .confirmation rfl (by decide)) ?_
  refine .head (Step.confirmation c6s8 c6s9 rfl) ?_
  refine .head (Step.response c6s9 (.generated "confirm?") c6s10 rfl) ?_
  refine .head
    (Step.analyzer c6s10 (.classified .needs_info none) c6s11 .gatherer rfl (by decide)) ?_
  refine .head
    (Step.gatherer c6s11 (.ran none none (some ["status"]) [] []) c6s12 .response rfl
      (by decide)) ?_
  refine .head (Step.response c6s12 (.generated "which status?") c6s13 rfl) ?_
  refine .head
    (Step.analyzer c6s13 (.classified .direct_answer (some true)) c6s14 .executor rfl
      (by decide)) ?_
  exact .refl


/-! ## The claims -/

/-- C1 counterexample: on the registered create path, parameters whose
condition weights sum to 120 do not raise; the request is constructed and
its weights sum to 120, not 100. -/
theorem c1_counterexample :
    (createExperimentToolRequest someIdGen c1Params).map
        (fun r => (r.conditions.map fun c => c.assignmentWeight).sum) = Except.ok 120 := by
  rfl

/-- C1 (amended): the registered create path performs no weight-sum
validation; whenever it returns a request, the condition weights are the
supplied weights unchanged. -/
theorem c1_weights_passthrough (idGen : Nat → String) (p : ActionParams)
    (cs : List CondParam) (h : p.conditions = some cs) :
    (createExperimentToolRequest idGen p).map
        (fun r => r.conditions.map fun c => c.assignmentWeight) =
      (createExperimentToolRequest idGen p).map (fun _ => cs.map fun c => c.weight) := by
  cases hr : createExperimentToolRequest idGen p with
  | error e => rfl
  | ok r =>
    have htr : ActionTools.transformToCreateExperimentRequest idGen p = .ok r := by
      unfold createExperimentToolRequest at hr
      split at hr
      · cases hr
      · exact hr
    obtain ⟨cs', hcs', hcond, _⟩ := transform_ok_fields idGen p r htr
    rw [h] at hcs'
    cases hcs'
    simp only [Except.map, hcond, createConditions_weights]

/-- C1 witness: the amended theorem applied at the concrete parameters. -/
theorem c1_weights_passthrough_witness :
    (createExperimentToolRequest someIdGen c1Params).map
        (fun r => r.conditions.map fun c => c.assignmentWeight) =
      (createExperimentToolRequest someIdGen c1Params).map
        (fun _ => c1Conditions.map fun c => c.weight) :=
  c1_weights_passthrough someIdGen c1Params c1Conditions rfl

/-- C2: at `filter_mode = includeAll` with `inclusion_users = ["u1"]`, the
copy of the transformation wired into the registered `create_experiment`
tool builds the inclusion segment from the supplied user list (no
sentinel), while the `experiment_builders.py` copy builds the sentinel
"All" group — the registered path diverges from the specified policy. -/
theorem c2_includeAll_divergence :
    (ActionTools.transformToCreateExperimentRequest someIdGen c2Params).map
        (fun r => r.experimentSegmentInclusion) =
      Except.ok { segment := { individualForSegment := [{ userId := "u1" }]
                               groupForSegment := []
                               subSegments := []
                               type := "private" } } ∧
    (ExperimentBuilders.transformToCreateExperimentRequest someIdGen c2Params).map
        (fun r => r.experimentSegmentInclusion) =
      Except.ok { segment := { individualForSegment := []
                               groupForSegment := [{ groupId := "All", type := "All" }]
                               subSegments := []
                               type := "private" } } :=
  ⟨rfl, rfl⟩

/-- C3: the copy of the partial-update segment logic wired into the
registered `update_experiment` tool clears the base inclusion groups when
only `inclusion_users` is overridden, while the `experiment_builders.py`
copy preserves them. -/
theorem c3_segment_preservation_divergence :
    (ActionTools.applyUpdatesToExperimentRequest someIdGen c3Base
          c3Override).experimentSegmentInclusion =
      { segment := { individualForSegment := [{ userId := "u2" }]
                     groupForSegment := []
                     subSegments := []
                     type := "private" } } ∧
    (ExperimentBuilders.applyUpdatesToExperimentRequest someIdGen c3Base
          c3Override).experimentSegmentInclusion =
      { segment := { individualForSegment := [{ userId := "u2" }]
                     groupForSegment := [{ groupId := "g1", type := "schoolId" }]
                     subSegments := []
                     type := "private" } } :=
  ⟨rfl, rfl⟩

/-- C4 counterexample: an `assign` rule whose `condition_code` matches no
condition raises nothing on the create path — the request is built with
`revertTo = None`. -/
theorem c4_counterexample :
    (ActionTools.transformToCreateExperimentRequest someIdGen c4Params).map
        (fun r => r.revertTo) = Except.ok none :=
  rfl

/-- C4 (amended): the create transformation resolves a matched
`condition_code` to the generated id of a matching condition of the built
request (`revert-to` is set exactly when some condition carries the code)
and sets `revertTo` to `None` for any non-`assign` rule; the partial-update
rule helper sets `revertTo` to `None` on `continue` (even over a stale
value) and on `assign` resolves the code through the supplied table and
then the request's own conditions; no branch fails on an unmatched code. -/
theorem c4_revert_resolution :
    (∀ (idGen : Nat → String) (p : ActionParams) (r : CreateExperimentRequest),
      ActionTools.transformToCreateExperimentRequest idGen p = .ok r →
      ((p.post_experiment_rule.bind fun rd => rd.rule) ≠ some "assign" →
        r.revertTo = none) ∧
      (∀ code, (p.post_experiment_rule.bind fun rd => rd.rule) = some "assign" →
        (p.post_experiment_rule.bind fun rd => rd.condition_code) = some code →
        (∀ v, r.revertTo = some v →
          ∃ cond ∈ r.conditions, cond.conditionCode = code ∧ cond.id = v) ∧
        ((∃ cond ∈ r.conditions, cond.conditionCode = code) → r.revertTo.isSome))) ∧
    (∀ (r : CreateExperimentRequest) (p : ActionParams) (table : List (String × String))
      (pr : PostRuleParam), p.post_experiment_rule = some pr →
      pr.rule.getD "continue" = "continue" →
      (applyPostExperimentRuleUpdate r p table).revertTo = none) ∧
    (∀ (r : CreateExperimentRequest) (p : ActionParams) (table : List (String × String))
      (pr : PostRuleParam) (code : String), p.post_experiment_rule = some pr →
      pr.rule = some "assign" → pr.condition_code = some code →
      (∀ v, pyDictGet? table code = some v →
        (applyPostExperimentRuleUpdate r p table).revertTo = some v) ∧
      (pyDictGet? table code = none →
        ∀ cond, (r.conditions.find? fun c => c.conditionCode = code) = some cond →
          (applyPostExperimentRuleUpdate r p table).revertTo = some cond.id)) := by
  refine ⟨?_, ?_, ?_⟩
  · intro idGen p r h
    obtain ⟨cs, hcs, hcond, hrev⟩ := transform_ok_fields idGen p r h
    constructor
    · intro hne
      rw [hrev, if_neg hne]
    · intro code hrule hcode
      rw [hrev, if_pos hrule, hcode]
      constructor
      · intro v hv
        simp only [Option.some_bind] at hv
        obtain ⟨cond, hmem, hc, hid⟩ :=
          createConditionsGo_table_sound idGen 0 cs code v hv
        exact ⟨cond, by rw [hcond]; exact hmem, hc, hid⟩
      · rintro ⟨cond, hmem, hc⟩
        rw [hcond] at hmem
        have hcodes : cond.conditionCode ∈ cs.map fun c => c.code := by
          rw [← createConditionsGo_codes idGen 0 cs]
          exact List.mem_map_of_mem _ hmem
        obtain ⟨q, hq, hqc⟩ := List.mem_map.mp hcodes
        have hcomp := createConditionsGo_table_complete idGen 0 cs code ⟨q, hq, by rw [hqc, hc]⟩
        simpa [createConditions, Option.some_bind] using hcomp
  · intro r p table pr hpost hrule
    unfold applyPostExperimentRuleUpdate
    rw [hpost]
    simp [hrule]
  · intro r p table pr code hpost hrule hcode
    unfold applyPostExperimentRuleUpdate
    rw [hpost]
    simp only [hrule, hcode, Option.getD_some, Option.isSome_some, and_true]
    constructor
    · intro v hv
      simp [hv]
    · intro hnone cond hfind
      simp [hnone, hfind]

/-- C4 witness: the amended theorem applied at concrete inputs. -/
theorem c4_revert_resolution_witness :
    (((c4MatchedParams.post_experiment_rule.bind fun rd => rd.rule) ≠ some "assign" →
        c4WitRequest.revertTo = none) ∧
      (∀ code,
        (c4MatchedParams.post_experiment_rule.bind fun rd => rd.rule) = some "assign" →
        (c4MatchedParams.post_experiment_rule.bind fun rd => rd.condition_code) =
          some code →
        (∀ v, c4WitRequest.revertTo = some v →
          ∃ cond ∈ c4WitRequest.conditions, cond.conditionCode = code ∧ cond.id = v) ∧
        ((∃ cond ∈ c4WitRequest.conditions, cond.conditionCode = code) →
          c4WitRequest.revertTo.isSome))) ∧
    (applyPostExperimentRuleUpdate c3Base c4ContinueParams []).revertTo = none ∧
    (∀ v, pyDictGet? [("treatment", "tid-1")] "treatment" = some v →
      (applyPostExperimentRuleUpdate c3Base c4AssignParams
        [("treatment", "tid-1")]).revertTo = some v) :=
  ⟨c4_revert_resolution.1 someIdGen c4MatchedParams c4WitRequest rfl,
   c4_revert_resolution.2.1 c3Base c4ContinueParams []
     { rule := some "continue", condition_code := none } rfl rfl,
   (c4_revert_resolution.2.2 c3Base c4AssignParams [("treatment", "tid-1")]
     { rule := some "assign", condition_code := some "treatment" } "treatment"
     rfl rfl rfl).1⟩

/-- C5: for every model behaviour (including one that proposes tool calls
on every response) and every tool layer, the iterative loop performs at
most `maxIterations` model invocations and returns (`success = true`, with
a final text). -/
theorem c5_loop_bounded (model : List Message → ModelResponse)
    (execTool : ToolCall → Except String String) (messages : List Message)
    (maxIterations : Nat) :
    (executeIterativeToolCalls model execTool messages maxIterations).invocations ≤
        maxIterations ∧
    (executeIterativeToolCalls model execTool messages maxIterations).success = true :=
  executeIterativeToolCallsGo_bounded model execTool maxIterations messages

/-- C6 counterexample: a reachable execution in which a pending action
whose `missing_params` list is non-empty reaches the tool executor — the
router checks only the confirmation flags, never `missing_params`. -/
theorem c6_counterexample :
    Reachable { node := .executor, state := c6s14 } ∧
    c6s14.action_needed = some "update_experiment" ∧
    c6s14.missing_params = ["status"] :=
  ⟨c6_reach_bad_executor, rfl, rfl⟩

/-- C6 (amended): in every reachable execution of the five-node graph,
control reaches the `tool_executor` node only with `user_confirmed = true`
(in particular destructive actions never execute unconfirmed); the
`missing_params` guard claimed alongside it does not hold — see the
counterexample. -/
theorem c6_executor_requires_confirmed (cfg : Config) (h : Reachable cfg)
    (hnode : cfg.node = .executor) : cfg.state.user_confirmed = some true := by
  unfold Reachable at h
  induction h with
  | refl => cases hnode
  | tail hrest hstep ih =>
    cases hstep with
    | analyzer s c s' n hs hn =>
      subst hn
      exact analyzerRouting_executor s' hnode
    | gatherer s c s' n hs hn =>
      subst hn
      exact absurd hnode (gathererRouting_ne_executor s')
    | confirmation s s' hs => cases hnode
    | executor s o s' hs => cases hnode
    | response s c s' hs => cases hnode

/-- C6 witness: the amended theorem at the first reachable executor
configuration of the trace. -/
theorem c6_executor_requires_confirmed_witness :
    Reachable { node := .executor, state := c6s5 } ∧ c6s5.user_confirmed = some true :=
  ⟨c6_reach_first_executor,
   c6_executor_requires_confirmed { node := .executor, state := c6s5 }
     c6_reach_first_executor rfl⟩

/-- C7 counterexample: with `max_iterations = 3` and a model that proposes
tool calls on every response, the loop performs exactly 3 invocations but
returns the content of the final iteration's last tool-result message
(`TR-c3`), not the 3rd response's text (`r3`), and appends no caveat. -/
theorem c7_counterexample :
    (executeIterativeToolCalls c7Model c7Exec c7Messages 3).invocations = 3 ∧
    (executeIterativeToolCalls c7Model c7Exec c7Messages 3).text = "TR-c3" ∧
    "TR-c3" ≠ "r3" := by
  refine ⟨rfl, rfl, ?_⟩
  decide

/-- C7 (amended): when every model response proposes at least one tool
call and `max_iterations ≥ 1`, the loop performs exactly `max_iterations`
model invocations and returns, unchanged and without any caveat, the
content of the last conversation entry — a tool-result message of the
final iteration, not the final model response's text. -/
theorem c7_bound_returns_last_tool_result (model : List Message → ModelResponse)
    (execTool : ToolCall → Except String String) (messages : List Message)
    (maxIterations : Nat) (hadv : ∀ conv, (model conv).toolCalls ≠ [])
    (hpos : 1 ≤ maxIterations) :
    (executeIterativeToolCalls model execTool messages maxIterations).invocations =
      maxIterations ∧
    ∃ c n i,
      (executeIterativeToolCalls model execTool messages
          maxIterations).conversation.getLast? = some (.tool c n i) ∧
      (executeIterativeToolCalls model execTool messages maxIterations).text = c :=
  executeIterativeToolCallsGo_adversarial model execTool hadv maxIterations messages hpos

/-- C7 witness: the amended theorem at the concrete adversarial model with
`max_iterations = 3`. -/
theorem c7_bound_returns_last_tool_result_witness :
    (executeIterativeToolCalls c7Model c7Exec c7Messages 3).invocations = 3 ∧
    ∃ c n i,
      (executeIterativeToolCalls c7Model c7Exec c7Messages 3).conversation.getLast? =
        some (.tool c n i) ∧
      (executeIterativeToolCalls c7Model c7Exec c7Messages 3).text = c :=
  c7_bound_returns_last_tool_result c7Model c7Exec c7Messages 3
    (fun conv => by simp [c7Model]) (by decide)

/-- C8: applying the partial-update function (both copies) with the empty
override dictionary returns the base request unchanged — no field is
dropped or altered merely by being absent from the override. -/
theorem c8_empty_override_identity (idGen : Nat → String)
    (base : CreateExperimentRequest) :
    ActionTools.applyUpdatesToExperimentRequest idGen base emptyActionParams = base ∧
    ExperimentBuilders.applyUpdatesToExperimentRequest idGen base emptyActionParams =
      base :=
  ⟨rfl, rfl⟩

/-- C9 counterexample: invoked on the initial state (no pending action),
the confirmation handler raises nothing — it returns (`Except.ok`) a
`RESPONDING` update recording `errors["confirmation"]`. -/
theorem c9_counterexample :
    createInitialState.action_needed = none ∧
    confirmationHandler createInitialState =
      .ok { current_state := some "RESPONDING"
            errors := some [("confirmation", "No action specified for confirmation")] } :=
  ⟨rfl, rfl⟩

/-- C9 (amended): on every state with no pending action the confirmation
handler returns — rather than raising `ValidationError` — a `RESPONDING`
update that records `errors["confirmation"] = "No action specified for
confirmation"`. -/
theorem c9_no_action_records_error (s : GraphState) (h : s.action_needed = none) :
    confirmationHandler s =
      .ok { current_state := some "RESPONDING"
            errors := some (pyDictSet s.errors "confirmation"
              "No action specified for confirmation") } := by
  unfold confirmationHandler
  rw [h]

/-- C9 witness: the amended theorem at the initial state. -/
theorem c9_no_action_records_error_witness :
    confirmationHandler createInitialState =
      .ok { current_state := some "RESPONDING"
            errors := some (pyDictSet createInitialState.errors "confirmation"
              "No action specified for confirmation") } :=
  c9_no_action_records_error createInitialState rfl

/-- C10: every invocation of the tool executor on a state with a pending
action — whether the execution succeeds or fails — returns an update that
clears the action (`action_needed = None`, `action_params = {}`) and the
whole confirmation state (`needs_confirmation = False`,
`confirmation_message = None`, `user_confirmed = None`). -/
theorem c10_executor_clears_pending_action (s : GraphState) (a : String)
    (outcome : Except String String) (h : s.action_needed = some a) :
    (toolExecutor s outcome).action_needed = some none ∧
    (toolExecutor s outcome).action_params = some [] ∧
    (toolExecutor s outcome).needs_confirmation = some false ∧
    (toolExecutor s outcome).confirmation_message = some none ∧
    (toolExecutor s outcome).user_confirmed = some none := by
  unfold toolExecutor
  rw [h]
  cases outcome with
  | ok r => exact ⟨rfl, rfl, rfl, rfl, rfl⟩
  | error e => exact ⟨rfl, rfl, rfl, rfl, rfl⟩

/-- C10 witness: the theorem at a concrete pending action, on a failing
execution outcome. -/
theorem c10_executor_clears_pending_action_witness :
    (toolExecutor pendingDeleteState (.error "boom")).action_needed = some none ∧
    (toolExecutor pendingDeleteState (.error "boom")).action_params = some [] ∧
    (toolExecutor pendingDeleteState (.error "boom")).needs_confirmation = some false ∧
    (toolExecutor pendingDeleteState (.error "boom")).confirmation_message = some none ∧
    (toolExecutor pendingDeleteState (.error "boom")).user_confirmed = some none :=
  c10_executor_clears_pending_action pendingDeleteState "delete_experiment"
    (.error "boom") rfl
